import Mathlib

/-!
Shallow embedding of the CORESKY-BOT orchestration core.

Sources embedded here:
  - src/utils/tokenLoader.js : maskToken, isTokenExpiredOrInvalid
  - src/services/apiClient.js : performSign
  - src/botLogic.js : updateBotStatus, scheduleNextRun, runCheckInCycle, stopBot
  - src/events.js : the event vocabulary (log, statusUpdate, checkinResult)

Conventions of the embedding:
  - JavaScript side effects on the shared EventEmitter are made explicit:
    each effectful function returns, next to its value, the list of events
    it emits, in emission order.  Two extra trace markers that are not
    EventEmitter events record observable suspensions and timer arming:
    `delayEv` (one `await delay(ms)`) and `timerArmed` (one `setTimeout`).
  - External collaborators are parameters: `jwt.decode` is a function
    `String -> DecodeOutcome` describing what decoding does on each token,
    and the axios POST is a function `String -> ApiResponse` describing the
    raw reply (or failure) the remote returns for each token.
  - `Date.now()` is an explicit `now : Int` parameter (milliseconds);
    `nextRunDate.toLocaleString()` is rendered as `toString` of the
    timestamp, since only the presence of the log line matters here.
  - Strings are modelled as their character sequences (JS indexes UTF-16
    units; the tokens involved are ASCII, where the two coincide).
  - Mutable module state of botLogic.js (`checkIntervalId`,
    `nextRunTimestamp`, `botStatus`, `loadedTokens`) is a `SchedState`
    record threaded explicitly; `checkIntervalId` is abstracted to the
    Boolean `checkIntervalArmed` (non-null or null).
-/

/-- Constant from src/botLogic.js: 24 hours in milliseconds. -/
def CHECK_INTERVAL_MS : Int := 24 * 60 * 60 * 1000

/-- Constant from src/botLogic.js: 3 seconds delay between accounts. -/
def DELAY_BETWEEN_ACCOUNTS_MS : Nat := 3000

/-- The event vocabulary of src/events.js, plus the two trace markers
`delayEv` and `timerArmed` recording suspensions and timer arming. -/
inductive Event where
  | log (level : String) (message : String)
  | statusUpdate (tokensLoaded : Nat) (nextRunTimestamp : Option Int) (botStatus : String)
  | checkinResult (index : Nat) (success : Bool) (message : String)
      (reward : Int) (isDuplicate : Bool)
  | delayEv (ms : Nat)
  | timerArmed (ms : Int)
deriving Repr, DecidableEq

/-- What `jwt.decode(token)` does on a given token: it can throw, return a
falsy value, or return an object whose `exp` claim is a number or not. -/
inductive DecodeOutcome where
  | throws (errMessage : String)
  | nullResult
  | decoded (exp : Option Int)
deriving Repr, DecidableEq

/-- src/utils/tokenLoader.js `maskToken`: shows the first 3 and last 4
characters of a token, or a fixed mask for short tokens. -/
def maskToken (token : String) : String :=
  if token = "" ∨ token.length < 8 then
    "***"
  else
    token.take 3 ++ "..." ++ token.drop (token.length - 4)

/-- src/utils/tokenLoader.js (auth section) `isTokenExpiredOrInvalid`:
returns the Boolean the JS function returns together with the log events
it emits.  The JS try/catch around `jwt.decode` is embedded by the
`DecodeOutcome.throws` case mapping to a plain `true` return, so no
exception leaves the function. -/
def isTokenExpiredOrInvalid (token : String) (decode : DecodeOutcome)
    (now : Int) (accountIndex : Nat) : Bool × List Event :=
  let prefixStr := "[Account " ++ toString (accountIndex + 1) ++ "]"
  if token = "" then
    (true, [Event.log "warn" (prefixStr ++ " Provided token is empty.")])
  else
    match decode with
    | DecodeOutcome.throws m =>
        (true, [Event.log "error" (prefixStr ++ " Failed to decode token: " ++ m)])
    | DecodeOutcome.nullResult =>
        (true, [Event.log "warn"
          (prefixStr ++ " Token decoded but lacks valid \x27exp\x27 claim.")])
    | DecodeOutcome.decoded none =>
        (true, [Event.log "warn"
          (prefixStr ++ " Token decoded but lacks valid \x27exp\x27 claim.")])
    | DecodeOutcome.decoded (some exp) =>
        let expirationTime := exp * 1000
        let isExpired := now ≥ expirationTime
        (isExpired,
          if isExpired then [Event.log "warn" (prefixStr ++ " Token is expired.")]
          else [])

/-- The raw outcome of the axios POST in src/services/apiClient.js:
either the request threw (network or request error, with the message and
the axios-shape-dependent suffix used in the log line), or a reply arrived
without a `data.code` field, or a well-formed reply with a code, an
optional message and an optional `debug.task.rewardPoint`. -/
inductive ApiResponse where
  | networkError (errMessage : String) (logSuffix : String)
  | noCode
  | reply (code : Int) (message : Option String) (rewardPoint : Option Int)
deriving Repr, DecidableEq

/-- The object literal `performSign` resolves with. -/
structure SignResult where
  success : Bool
  message : String
  reward : Int
  isDuplicate : Bool
deriving Repr, DecidableEq

/-- src/services/apiClient.js `performSign`: classification of the raw
reply into a `SignResult`, together with the log events it emits.  The
`|| 0` on `rewardPoint` and `|| 'No message provided.'` on `message` are
`Option.getD` with the same defaults (`0 || 0` is `0` either way). -/
def performSign (resp : ApiResponse) (accountIndex : Nat) : SignResult × List Event :=
  let logPrefix := "[Account " ++ toString (accountIndex + 1) ++ "]"
  let attemptLog := Event.log "info" (logPrefix ++ " 📡 Attempting sign-in...")
  match resp with
  | ApiResponse.reply code message rewardPoint =>
      let responseMessage := message.getD "No message provided."
      if code = 200 then
        let rewardPoints := rewardPoint.getD 0
        if rewardPoints > 0 then
          ({ success := true, message := "+" ++ toString rewardPoints ++ " points",
             reward := rewardPoints, isDuplicate := false },
           [attemptLog,
            Event.log "success"
              (logPrefix ++ " ✅ Sign-in successful! Reward: "
                ++ toString rewardPoints ++ " points")])
        else
          ({ success := true, message := "Already checked in",
             reward := 0, isDuplicate := true },
           [attemptLog,
            Event.log "warn" (logPrefix ++ " ⚠️ Already checked in today.")])
      else
        ({ success := false,
           message := "API Error (" ++ toString code ++ "): " ++ responseMessage,
           reward := 0, isDuplicate := false },
         [attemptLog,
          Event.log "error"
            (logPrefix ++ " ❌ Sign-in failed! API Code: " ++ toString code
              ++ ", Message: " ++ responseMessage)])
  | ApiResponse.noCode =>
      ({ success := false, message := "Unexpected API response format",
         reward := 0, isDuplicate := false },
       [attemptLog,
        Event.log "error"
          (logPrefix ++ " ❌ Received unexpected response structure from API.")])
  | ApiResponse.networkError m suffix =>
      ({ success := false, message := "Request Error: " ++ m,
         reward := 0, isDuplicate := false },
       [attemptLog,
        Event.log "error"
          (logPrefix ++ " 🚨 Network or request error during sign-in: " ++ m
            ++ suffix)])

/-- The mutable module state of src/botLogic.js, threaded explicitly.
`checkIntervalArmed` abstracts `checkIntervalId` to whether a timer is
armed (the id value itself is never inspected beyond truthiness). -/
structure SchedState where
  checkIntervalArmed : Bool
  nextRunTimestamp : Option Int
  botStatus : String
  loadedTokens : List String
deriving Repr, DecidableEq

/-- src/botLogic.js `updateBotStatus`: sets the status and emits a
`statusUpdate` event followed by an info log. -/
def updateBotStatus (newStatus : String) (s : SchedState) : SchedState × List Event :=
  let s := { s with botStatus := newStatus }
  (s, [Event.statusUpdate s.loadedTokens.length s.nextRunTimestamp newStatus,
       Event.log "info" ("Bot status changed to: " ++ newStatus)])

/-- src/botLogic.js `scheduleNextRun`: clears any existing timer, sets
`nextRunTimestamp = now + CHECK_INTERVAL_MS`, moves to WAITING, logs the
schedule, and arms a fresh one-shot timer. -/
def scheduleNextRun (now : Int) (s : SchedState) : SchedState × List Event :=
  let s := { s with checkIntervalArmed := false }
  let nextRun := now + CHECK_INTERVAL_MS
  let s := { s with nextRunTimestamp := some nextRun }
  let (s, evs) := updateBotStatus "WAITING" s
  let evs := evs ++ [Event.log "wait"
    ("⏳ Scheduling next check-in cycle for: " ++ toString nextRun)]
  let s := { s with checkIntervalArmed := true }
  (s, evs ++ [Event.timerArmed CHECK_INTERVAL_MS])

/-- src/botLogic.js `stopBot`: disarms a pending timer if one is armed
(logging that the scheduling stopped), clears `nextRunTimestamp`, and
moves to IDLE. -/
def stopBot (s : SchedState) : SchedState × List Event :=
  let (s, evs) :=
    if s.checkIntervalArmed then
      ({ s with checkIntervalArmed := false },
       [Event.log "info" "⏹️ Bot scheduling stopped."])
    else
      (s, [])
  let s := { s with nextRunTimestamp := none }
  let (s, evs2) := updateBotStatus "IDLE" s
  (s, evs ++ evs2)

/-- The body of the `for` loop of `runCheckInCycle` for one account:
processing log, credential gate, then either the skip branch (error log,
failed `checkinResult`, unconditional delay) or the attempt branch
(`performSign`, its `checkinResult`, and the delay guarded by
`i < loadedTokens.length - 1`).  The second component lists the indices
for which `performSign` was invoked. -/
def processAccount (now : Int) (decodeEnv : String → DecodeOutcome)
    (api : String → ApiResponse) (total : Nat) (i : Nat) (token : String) :
    List Event × List Nat :=
  let procLog := Event.log "info"
    ("--- Processing Account " ++ toString (i + 1) ++ " (" ++ maskToken token ++ ") ---")
  let gate := isTokenExpiredOrInvalid token (decodeEnv token) now i
  if gate.1 then
    ([procLog] ++ gate.2 ++
      [Event.log "error"
        ("[Account " ++ toString (i + 1) ++ "] Token is expired or invalid. Skipping."),
       Event.checkinResult i false "Token Expired/Invalid" 0 false,
       Event.delayEv DELAY_BETWEEN_ACCOUNTS_MS],
     [])
  else
    let r := performSign (api token) i
    let base := [procLog] ++ gate.2 ++ r.2 ++
      [Event.checkinResult i r.1.success r.1.message r.1.reward r.1.isDuplicate]
    if i < total - 1 then
      (base ++
        [Event.log "info"
          ("Waiting " ++ toString (DELAY_BETWEEN_ACCOUNTS_MS / 1000)
            ++ "s before next account..."),
         Event.delayEv DELAY_BETWEEN_ACCOUNTS_MS],
       [i])
    else
      (base, [i])

/-- The `for` loop of `runCheckInCycle`, as structural recursion on the
remaining tokens with the running index `i` and the fixed
`total = loadedTokens.length` used by the last-account test. -/
def cycleLoop (now : Int) (decodeEnv : String → DecodeOutcome)
    (api : String → ApiResponse) (total : Nat) (i : Nat) (tokens : List String) :
    List Event × List Nat :=
  match tokens with
  | [] => ([], [])
  | t :: rest =>
      let h := processAccount now decodeEnv api total i t
      let r := cycleLoop now decodeEnv api total (i + 1) rest
      (h.1 ++ r.1, h.2 ++ r.2)

/-- The unconditional tail of `runCheckInCycle` after the loop: the
cycle-finished log followed by `scheduleNextRun()`.  This is exactly what
runs when an in-flight cycle completes, whatever happened to the shared
state meanwhile. -/
def cycleCompletion (now : Int) (s : SchedState) : SchedState × List Event :=
  let r := scheduleNextRun now s
  (r.1, [Event.log "info" "✅ Check-in cycle finished."] ++ r.2)

/-- The value and full trace of one `runCheckInCycle()` call. -/
structure CycleResult where
  state : SchedState
  events : List Event
  attempts : List Nat
deriving Repr, DecidableEq

/-- src/botLogic.js `runCheckInCycle`: RUNNING status, start log, then
either the empty-set warn branch going straight to `scheduleNextRun`, or
the per-account loop followed by `cycleCompletion`. -/
def runCheckInCycle (now : Int) (decodeEnv : String → DecodeOutcome)
    (api : String → ApiResponse) (s : SchedState) : CycleResult :=
  let r0 := updateBotStatus "RUNNING" s
  let s := r0.1
  let evs0 := r0.2 ++ [Event.log "info" "🚀 Starting check-in cycle..."]
  if s.loadedTokens.length = 0 then
    let evs1 := [Event.log "warn" "No tokens loaded, skipping check-in cycle."]
    let r1 := scheduleNextRun now s
    ⟨r1.1, evs0 ++ evs1 ++ r1.2, []⟩
  else
    let evs1 := [Event.log "info"
      ("Processing " ++ toString s.loadedTokens.length ++ " account(s)...")]
    let loop := cycleLoop now decodeEnv api s.loadedTokens.length 0 s.loadedTokens
    let r1 := cycleCompletion now s
    ⟨r1.1, evs0 ++ evs1 ++ loop.1 ++ r1.2, loop.2⟩

/-- Projection: the index carried by a `checkinResult` event. -/
def checkinIndex? (e : Event) : Option Nat :=
  match e with
  | Event.checkinResult i _ _ _ _ => some i
  | _ => none

/-- Is this event a `checkinResult`? -/
def isCheckin (e : Event) : Bool :=
  match e with
  | Event.checkinResult _ _ _ _ _ => true
  | _ => false

/-- The cycle-complete signal: the `statusUpdate` event that moves the
bot to WAITING, emitted exactly by `scheduleNextRun` at the end of every
cycle. -/
def isCycleComplete (e : Event) : Bool :=
  match e with
  | Event.statusUpdate _ _ st => st = "WAITING"
  | _ => false

/-- Is this trace entry a suspension (`await delay(ms)`)? -/
def isDelay (e : Event) : Bool :=
  match e with
  | Event.delayEv _ => true
  | _ => false

/-- Is this event a plain log event? -/
def isLog (e : Event) : Bool :=
  match e with
  | Event.log _ _ => true
  | _ => false

/-- The levels of the log events of a trace, in order. -/
def logLevels (evs : List Event) : List String :=
  evs.filterMap fun e =>
    match e with
    | Event.log lvl _ => some lvl
    | _ => none

/-- A fixed environment for concrete runs: every token decodes to a falsy
value (so the gate rejects it). -/
def decodeEnvNull : String → DecodeOutcome := fun _ => DecodeOutcome.nullResult

/-- A fixed environment for concrete runs: every attempt gets a reply
without a `data.code` field. -/
def apiNoCode : String → ApiResponse := fun _ => ApiResponse.noCode

@[simp] theorem checkinIndex?_log (lvl m : String) :
    checkinIndex? (Event.log lvl m) = none := rfl

@[simp] theorem checkinIndex?_statusUpdate (n : Nat) (nrt : Option Int) (st : String) :
    checkinIndex? (Event.statusUpdate n nrt st) = none := rfl

@[simp] theorem checkinIndex?_checkin (i : Nat) (su : Bool) (m : String) (r : Int) (d : Bool) :
    checkinIndex? (Event.checkinResult i su m r d) = some i := rfl

@[simp] theorem checkinIndex?_delay (ms : Nat) : checkinIndex? (Event.delayEv ms) = none := rfl

@[simp] theorem checkinIndex?_timer (ms : Int) : checkinIndex? (Event.timerArmed ms) = none := rfl

@[simp] theorem isCycleComplete_log (lvl m : String) :
    isCycleComplete (Event.log lvl m) = false := rfl

@[simp] theorem isCycleComplete_running (n : Nat) (nrt : Option Int) :
    isCycleComplete (Event.statusUpdate n nrt "RUNNING") = false := rfl

@[simp] theorem isCycleComplete_waiting (n : Nat) (nrt : Option Int) :
    isCycleComplete (Event.statusUpdate n nrt "WAITING") = true := rfl

@[simp] theorem isCycleComplete_checkin (i : Nat) (su : Bool) (m : String) (r : Int) (d : Bool) :
    isCycleComplete (Event.checkinResult i su m r d) = false := rfl

@[simp] theorem isCycleComplete_delay (ms : Nat) :
    isCycleComplete (Event.delayEv ms) = false := rfl

@[simp] theorem isCycleComplete_timer (ms : Int) :
    isCycleComplete (Event.timerArmed ms) = false := rfl

@[simp] theorem isDelay_log (lvl m : String) : isDelay (Event.log lvl m) = false := rfl

@[simp] theorem isDelay_statusUpdate (n : Nat) (nrt : Option Int) (st : String) :
    isDelay (Event.statusUpdate n nrt st) = false := rfl

@[simp] theorem isDelay_checkin (i : Nat) (su : Bool) (m : String) (r : Int) (d : Bool) :
    isDelay (Event.checkinResult i su m r d) = false := rfl

@[simp] theorem isDelay_delay (ms : Nat) : isDelay (Event.delayEv ms) = true := rfl

@[simp] theorem isDelay_timer (ms : Int) : isDelay (Event.timerArmed ms) = false := rfl

@[simp] theorem isCheckin_log (lvl m : String) : isCheckin (Event.log lvl m) = false := rfl

@[simp] theorem isCheckin_statusUpdate (n : Nat) (nrt : Option Int) (st : String) :
    isCheckin (Event.statusUpdate n nrt st) = false := rfl

@[simp] theorem isCheckin_checkin (i : Nat) (su : Bool) (m : String) (r : Int) (d : Bool) :
    isCheckin (Event.checkinResult i su m r d) = true := rfl

@[simp] theorem isCheckin_delay (ms : Nat) : isCheckin (Event.delayEv ms) = false := rfl

@[simp] theorem isCheckin_timer (ms : Int) : isCheckin (Event.timerArmed ms) = false := rfl

/-- Traces consisting only of log events carry no check-in results, no
cycle-complete signal, no suspension, and no `checkinResult` entry. -/
theorem trace_of_logs {evs : List Event} (h : ∀ e ∈ evs, isLog e = true) :
    evs.filterMap checkinIndex? = [] ∧ evs.countP isCycleComplete = 0 ∧
    evs.countP isDelay = 0 ∧ evs.filter isCheckin = [] := by
  induction evs with
  | nil => simp
  | cons e rest ih =>
      have he := h e (by simp)
      have hr := ih fun x hx => h x (List.mem_cons_of_mem _ hx)
      cases e with
      | log lvl m =>
          refine ⟨by simp [hr.1], by simp [List.countP_cons, hr.2.1],
            by simp [List.countP_cons, hr.2.2.1], by simp [hr.2.2.2]⟩
      | statusUpdate n nrt st => simp [isLog] at he
      | checkinResult i su m r d => simp [isLog] at he
      | delayEv ms => simp [isLog] at he
      | timerArmed ms => simp [isLog] at he

/-- Every event `isTokenExpiredOrInvalid` emits is a log event. -/
theorem gate_trace_logs (token : String) (d : DecodeOutcome) (now : Int) (i : Nat) :
    ∀ e ∈ (isTokenExpiredOrInvalid token d now i).2, isLog e = true := by
  intro e he
  unfold isTokenExpiredOrInvalid at he
  by_cases h : token = ""
  · simp only [h, if_true, List.mem_singleton] at he
    subst he; rfl
  · simp only [h, if_false] at he
    cases d with
    | throws m => simp at he; subst he; rfl
    | nullResult => simp at he; subst he; rfl
    | decoded exp =>
        cases exp with
        | none => simp at he; subst he; rfl
        | some v =>
            simp only [] at he
            split at he
            · simp at he; subst he; rfl
            · simp at he

/-- Every event `performSign` emits is a log event. -/
theorem performSign_trace_logs (resp : ApiResponse) (i : Nat) :
    ∀ e ∈ (performSign resp i).2, isLog e = true := by
  intro e he
  cases resp with
  | networkError m suffix => simp [performSign] at he; rcases he with h | h <;> (subst h; rfl)
  | noCode => simp [performSign] at he; rcases he with h | h <;> (subst h; rfl)
  | reply code msg rp =>
      simp only [performSign] at he
      split at he <;> [skip; (simp at he; rcases he with h | h <;> (subst h; rfl))]
      split at he <;> simp at he <;> rcases he with h | h <;> (subst h; rfl)

/-- The trace of `scheduleNextRun` carries no check-in events and no
suspensions, and exactly one cycle-complete signal (the WAITING
`statusUpdate`). -/
theorem scheduleNextRun_trace (now : Int) (s : SchedState) :
    (scheduleNextRun now s).2.filterMap checkinIndex? = [] ∧
    (scheduleNextRun now s).2.countP isCycleComplete = 1 ∧
    (scheduleNextRun now s).2.countP isDelay = 0 := by
  simp [scheduleNextRun, updateBotStatus, List.countP_cons]

/-- One account step emits exactly one `checkinResult`, carrying the
account index, and no cycle-complete signal. -/
theorem processAccount_checkins (now : Int) (d : String → DecodeOutcome)
    (a : String → ApiResponse) (total i : Nat) (tok : String) :
    (processAccount now d a total i tok).1.filterMap checkinIndex? = [i] ∧
    (processAccount now d a total i tok).1.countP isCycleComplete = 0 := by
  have hg := trace_of_logs (gate_trace_logs tok (d tok) now i)
  have hp := trace_of_logs (performSign_trace_logs (a tok) i)
  simp only [processAccount]
  split
  · simp only [List.filterMap_append, List.filterMap_cons, List.filterMap_nil,
      checkinIndex?_log, checkinIndex?_checkin, checkinIndex?_delay,
      List.countP_append, List.countP_cons, List.countP_nil,
      isCycleComplete_log, isCycleComplete_checkin, isCycleComplete_delay,
      hg.1, hg.2.1, List.nil_append, List.singleton_append, List.cons_append]
    simp
  · split <;>
      · simp only [List.filterMap_append, List.filterMap_cons, List.filterMap_nil,
          checkinIndex?_log, checkinIndex?_checkin, checkinIndex?_delay,
          List.countP_append, List.countP_cons, List.countP_nil,
          isCycleComplete_log, isCycleComplete_checkin, isCycleComplete_delay,
          hg.1, hg.2.1, hp.1, hp.2.1, List.nil_append, List.singleton_append,
          List.cons_append]
        simp

/-- The loop over the remaining tokens emits one `checkinResult` per
token, indexed consecutively from `i` in order, and no cycle-complete
signal. -/
theorem cycleLoop_checkins (now : Int) (d : String → DecodeOutcome)
    (a : String → ApiResponse) (total : Nat) :
    ∀ (toks : List String) (i : Nat),
      (cycleLoop now d a total i toks).1.filterMap checkinIndex? =
        List.range' i toks.length ∧
      (cycleLoop now d a total i toks).1.countP isCycleComplete = 0 := by
  intro toks
  induction toks with
  | nil => intro i; simp [cycleLoop]
  | cons t rest ih =>
      intro i
      have hh := processAccount_checkins now d a total i t
      have hr := ih (i + 1)
      simp only [cycleLoop]
      simp only [List.filterMap_append, List.countP_append, hh.1, hh.2, hr.1, hr.2,
        List.length_cons, List.range'_succ]
      simp

/-- C1: one invocation of `runCheckInCycle` over N loaded credentials
emits exactly N `checkinResult` events, carrying the zero-based load-order
indices 0..N-1 in load order, followed by exactly one cycle-complete
signal (the WAITING `statusUpdate` of `scheduleNextRun`), with no
check-in event after it — including the case N = 0. -/
theorem runCheckInCycle_results (now : Int) (d : String → DecodeOutcome)
    (a : String → ApiResponse) (s : SchedState) :
    (runCheckInCycle now d a s).events.filterMap checkinIndex? =
      List.range s.loadedTokens.length ∧
    (runCheckInCycle now d a s).events.countP isCycleComplete = 1 ∧
    ∃ t₁ t₂, (runCheckInCycle now d a s).events = t₁ ++ t₂ ∧
      t₁.filterMap checkinIndex? = List.range s.loadedTokens.length ∧
      t₁.countP isCycleComplete = 0 ∧
      t₂.filterMap checkinIndex? = [] ∧
      t₂.countP isCycleComplete = 1 := by
  obtain ⟨hs1, hs2, -⟩ := scheduleNextRun_trace now { s with botStatus := "RUNNING" }
  have hloop := cycleLoop_checkins now d a s.loadedTokens.length s.loadedTokens 0
  have main : ∃ t₁ t₂, (runCheckInCycle now d a s).events = t₁ ++ t₂ ∧
      t₁.filterMap checkinIndex? = List.range s.loadedTokens.length ∧
      t₁.countP isCycleComplete = 0 ∧
      t₂.filterMap checkinIndex? = [] ∧
      t₂.countP isCycleComplete = 1 := by
    simp only [runCheckInCycle, updateBotStatus, cycleCompletion]
    split
    · rename_i h
      refine ⟨[Event.statusUpdate s.loadedTokens.length s.nextRunTimestamp "RUNNING",
               Event.log "info" ("Bot status changed to: " ++ "RUNNING"),
               Event.log "info" "🚀 Starting check-in cycle...",
               Event.log "warn" "No tokens loaded, skipping check-in cycle."],
              (scheduleNextRun now { s with botStatus := "RUNNING" }).2,
              ?_, ?_, ?_, hs1, hs2⟩
      · simp
      · simp [h]
      · simp [List.countP_cons]
    · refine ⟨[Event.statusUpdate s.loadedTokens.length s.nextRunTimestamp "RUNNING",
               Event.log "info" ("Bot status changed to: " ++ "RUNNING"),
               Event.log "info" "🚀 Starting check-in cycle...",
               Event.log "info"
                 ("Processing " ++ toString s.loadedTokens.length ++ " account(s)...")] ++
                (cycleLoop now d a s.loadedTokens.length 0 s.loadedTokens).1 ++
                [Event.log "info" "✅ Check-in cycle finished."],
              (scheduleNextRun now { s with botStatus := "RUNNING" }).2,
              ?_, ?_, ?_, hs1, hs2⟩
      · simp
      · simp [List.filterMap_append, hloop.1, List.range_eq_range']
      · simp [List.countP_append, List.countP_cons, hloop.2]
  obtain ⟨t₁, t₂, heq, h1, h2, h3, h4⟩ := main
  refine ⟨?_, ?_, t₁, t₂, heq, h1, h2, h3, h4⟩
  · rw [heq]; simp [List.filterMap_append, h1, h3]
  · rw [heq]; simp [List.countP_append, h2, h4]

/-- C2: on a credential that decodes to a numeric `exp` claim, the gate
classifies it expired exactly when the current time is at or past
`exp * 1000`; in particular a credential whose expiry equals the current
instant is expired (the boundary is inclusive). -/
theorem tokenGate_expiry_boundary (tok : String) (exp now : Int) (i : Nat)
    (h : tok ≠ "") :
    (isTokenExpiredOrInvalid tok (DecodeOutcome.decoded (some exp)) now i).1 =
      decide (exp * 1000 ≤ now) ∧
    (isTokenExpiredOrInvalid tok (DecodeOutcome.decoded (some exp)) (exp * 1000) i).1 =
      true := by
  constructor <;> simp [isTokenExpiredOrInvalid, h]

/-- Witness for the expiry-boundary theorem at a concrete credential:
a nonempty token with `exp = 2` checked at 1500 ms and at the exact
expiry instant 2000 ms. -/
theorem tokenGate_expiry_boundary_witness :
    (isTokenExpiredOrInvalid "tk" (DecodeOutcome.decoded (some 2)) 1500 0).1 =
      decide ((2 : Int) * 1000 ≤ 1500) ∧
    (isTokenExpiredOrInvalid "tk" (DecodeOutcome.decoded (some 2)) ((2 : Int) * 1000) 0).1 =
      true :=
  tokenGate_expiry_boundary "tk" 2 1500 0 (by decide)

/-- C3: every `SignResult` the classifier can return satisfies both
invariants: a duplicate outcome has zero reward, and an unaccepted
outcome has zero reward. -/
theorem performSign_outcome_invariant (resp : ApiResponse) (i : Nat) :
    ((performSign resp i).1.isDuplicate = true → (performSign resp i).1.reward = 0) ∧
    ((performSign resp i).1.success = false → (performSign resp i).1.reward = 0) := by
  cases resp with
  | networkError m suffix => simp [performSign]
  | noCode => simp [performSign]
  | reply code msg rp =>
      simp only [performSign]
      split
      · split <;> simp_all
      · simp

/-- Witness for the outcome invariants: a 200-reply with zero reward
yields a duplicate with reward 0, and a malformed reply yields an
unaccepted outcome with reward 0. -/
theorem performSign_outcome_invariant_witness :
    (performSign (ApiResponse.reply 200 none (some 0)) 0).1.reward = 0 ∧
    (performSign ApiResponse.noCode 0).1.reward = 0 :=
  ⟨(performSign_outcome_invariant (ApiResponse.reply 200 none (some 0)) 0).1 (by decide),
   (performSign_outcome_invariant ApiResponse.noCode 0).2 (by decide)⟩

/-- C9: the credential gate classifies every empty, undecodable,
throwing, or exp-less credential as unusable (returns `true`), for any
current time; in the embedding the decode-throw case is absorbed into
this Boolean, so no exception crosses the function boundary. -/
theorem tokenGate_failures_invalid (tok m : String) (d : DecodeOutcome)
    (now : Int) (i : Nat) :
    (isTokenExpiredOrInvalid "" d now i).1 = true ∧
    (isTokenExpiredOrInvalid tok (DecodeOutcome.throws m) now i).1 = true ∧
    (isTokenExpiredOrInvalid tok DecodeOutcome.nullResult now i).1 = true ∧
    (isTokenExpiredOrInvalid tok (DecodeOutcome.decoded none) now i).1 = true := by
  refine ⟨by simp [isTokenExpiredOrInvalid], ?_, ?_, ?_⟩ <;>
    by_cases h : tok = "" <;> simp [isTokenExpiredOrInvalid, h]

/-- C4, counterexample: on a success-code reply with zero reward the
classifier's detail is the capitalized "Already checked in", not the
lower-case "already checked in" stated in the claim. -/
theorem performSign_zero_reward_detail_counterexample :
    (performSign (ApiResponse.reply 200 none (some 0)) 0).1 ≠
      { success := true, message := "already checked in",
        reward := 0, isDuplicate := true } := by
  decide

/-- C4, amended: a success-code (200) reply with reward greater than 0
classifies as accepted, non-duplicate, with that reward and detail
"+(reward) points" and a success-level log; with reward 0 it classifies
as accepted duplicate with reward 0 and detail "Already checked in"
(capitalized) and a warn-level log. -/
theorem performSign_success_code_branches (m : Option String) (rp : Option Int) (i : Nat) :
    (performSign (ApiResponse.reply 200 m rp) i).1 =
      (if rp.getD 0 > 0 then
        { success := true, message := "+" ++ toString (rp.getD 0) ++ " points",
          reward := rp.getD 0, isDuplicate := false }
      else
        { success := true, message := "Already checked in",
          reward := 0, isDuplicate := true }) ∧
    logLevels (performSign (ApiResponse.reply 200 m rp) i).2 =
      (if rp.getD 0 > 0 then ["info", "success"] else ["info", "warn"]) := by
  simp only [performSign, logLevels]
  split
  · split <;> simp_all [List.filterMap_cons]
  · rename_i h; exact absurd trivial h

/-- C8: stopping twice from any scheduler state leaves the bot IDLE with
a cleared next-run timestamp after each call, and the second call (made
from IDLE) changes nothing. -/
theorem stopBot_idempotent (s : SchedState) :
    ((stopBot s).1.botStatus = "IDLE" ∧ (stopBot s).1.nextRunTimestamp = none) ∧
    ((stopBot (stopBot s).1).1.botStatus = "IDLE" ∧
      (stopBot (stopBot s).1).1.nextRunTimestamp = none) ∧
    (stopBot (stopBot s).1).1 = (stopBot s).1 := by
  cases s with
  | mk armed nrt st toks => cases armed <;> simp [stopBot, updateBotStatus]

/-- C6, counterexample: stop the bot while a cycle is in flight
(RUNNING, no timer armed), then let the in-flight cycle complete: the
unconditional `scheduleNextRun` at the end of `runCheckInCycle` moves
the stopped scheduler out of IDLE into WAITING and re-arms the timer. -/
theorem stop_resurrection_counterexample :
    (stopBot ⟨false, none, "RUNNING", ["tok1"]⟩).1.botStatus = "IDLE" ∧
    (cycleCompletion 0 (stopBot ⟨false, none, "RUNNING", ["tok1"]⟩).1).1.botStatus =
      "WAITING" ∧
    (cycleCompletion 0 (stopBot ⟨false, none, "RUNNING", ["tok1"]⟩).1).1.checkIntervalArmed =
      true := by
  decide

/-- C6, amended: `stopBot` immediately disarms the timer, clears the
next-run timestamp and enters IDLE; but the completion of an in-progress
cycle does not consult that state — it unconditionally reschedules,
returning the scheduler to WAITING with a fresh timer armed and a new
next-run timestamp. -/
theorem stopBot_idle_but_completion_reschedules (s : SchedState) (now : Int) :
    ((stopBot s).1.botStatus = "IDLE" ∧ (stopBot s).1.checkIntervalArmed = false ∧
      (stopBot s).1.nextRunTimestamp = none) ∧
    ((cycleCompletion now (stopBot s).1).1.botStatus = "WAITING" ∧
      (cycleCompletion now (stopBot s).1).1.checkIntervalArmed = true ∧
      (cycleCompletion now (stopBot s).1).1.nextRunTimestamp =
        some (now + CHECK_INTERVAL_MS)) := by
  cases s with
  | mk armed nrt st toks =>
      cases armed <;> simp [stopBot, updateBotStatus, cycleCompletion, scheduleNextRun]

/-- C10: `maskToken` returns the fixed mask "***" for tokens shorter
than 8 characters (the empty token included), and otherwise the first 3
characters, the literal "...", and the last 4 characters — a 10-character
result. -/
theorem maskToken_spec (t : String) :
    (t.length < 8 → maskToken t = "***") ∧
    (8 ≤ t.length →
      maskToken t = t.take 3 ++ "..." ++ t.drop (t.length - 4) ∧
      (maskToken t).length = 10) := by
  constructor
  · intro h
    simp [maskToken, h]
  · intro h
    have h1 : ¬(t = "" ∨ t.length < 8) := by
      rintro (rfl | hlt)
      · simp at h
      · omega
    constructor
    · simp [maskToken, h1]
    · simp only [maskToken, h1, if_false, String.length_append]
      have e1 : (t.take 3).length = min 3 t.length := by
        rw [String.take_eq]
        show (t.1.take 3).length = min 3 t.1.length
        simp [List.length_take]
      have e2 : (t.drop (t.length - 4)).length = t.length - (t.length - 4) := by
        rw [String.drop_eq]
        show (t.1.drop (t.length - 4)).length = t.1.length - (t.length - 4)
        simp [List.length_drop]
      have e3 : ("..." : String).length = 3 := rfl
      rw [e1, e2, e3]
      omega

/-- Witness for `maskToken_spec` at a 5-character and a 10-character
token. -/
theorem maskToken_spec_witness :
    maskToken "short" = "***" ∧
    (maskToken "abcdefghij" =
        ("abcdefghij" : String).take 3 ++ "..."
          ++ ("abcdefghij" : String).drop (("abcdefghij" : String).length - 4) ∧
      (maskToken "abcdefghij").length = 10) :=
  ⟨(maskToken_spec "short").1 (by decide), (maskToken_spec "abcdefghij").2 (by decide)⟩

/-- C5: when the credential gate rejects a credential, the per-credential
step of the cycle runner emits exactly one `checkinResult` for it —
unaccepted, with detail "Token Expired/Invalid" naming the reason, zero
reward, no duplicate flag — and never invokes `performSign` (the list of
remote attempts is empty). -/
theorem processAccount_gate_reject_skips_remote (now : Int)
    (d : String → DecodeOutcome) (a : String → ApiResponse)
    (total i : Nat) (tok : String)
    (h : (isTokenExpiredOrInvalid tok (d tok) now i).1 = true) :
    (processAccount now d a total i tok).2 = [] ∧
    (processAccount now d a total i tok).1.filter isCheckin =
      [Event.checkinResult i false "Token Expired/Invalid" 0 false] := by
  have hg := trace_of_logs (gate_trace_logs tok (d tok) now i)
  simp only [processAccount, h, if_true]
  refine ⟨by trivial, ?_⟩
  simp [List.filter_append, hg.2.2.2]

/-- Witness for the gate-reject theorem: the empty token is rejected and
its account step makes no remote attempt. -/
theorem processAccount_gate_reject_skips_remote_witness :
    (processAccount 0 decodeEnvNull apiNoCode 1 0 "").2 = [] ∧
    (processAccount 0 decodeEnvNull apiNoCode 1 0 "").1.filter isCheckin =
      [Event.checkinResult 0 false "Token Expired/Invalid" 0 false] :=
  processAccount_gate_reject_skips_remote 0 decodeEnvNull apiNoCode 1 0 "" (by decide)

/-- One account step suspends exactly once when the gate rejects the
credential (the skip branch delays unconditionally), and otherwise
exactly when the account is not in last position. -/
theorem processAccount_delay_count (now : Int) (d : String → DecodeOutcome)
    (a : String → ApiResponse) (total i : Nat) (tok : String) :
    (processAccount now d a total i tok).1.countP isDelay =
      (if (isTokenExpiredOrInvalid tok (d tok) now i).1 then 1
       else if i < total - 1 then 1 else 0) := by
  have hg := trace_of_logs (gate_trace_logs tok (d tok) now i)
  have hp := trace_of_logs (performSign_trace_logs (a tok) i)
  simp only [processAccount]
  split
  · simp only [List.countP_append, List.countP_cons, List.countP_nil,
      isDelay_log, isDelay_checkin, isDelay_delay, hg.2.2.1]
    simp
  · split <;>
      · simp only [List.countP_append, List.countP_cons, List.countP_nil,
          isDelay_log, isDelay_checkin, isDelay_delay, hg.2.2.1, hp.2.2.1]
        simp

/-- Suspension count of the loop over `init ++ [last]` starting at index
`i` with `i + init.length + 1 = total`: one delay per non-last account,
plus one more when the gate rejects the last account. -/
theorem cycleLoop_delay_count (now : Int) (d : String → DecodeOutcome)
    (a : String → ApiResponse) (total : Nat) :
    ∀ (init : List String) (last : String) (i : Nat),
      i + init.length + 1 = total →
      (cycleLoop now d a total i (init ++ [last])).1.countP isDelay =
        init.length +
          (if (isTokenExpiredOrInvalid last (d last) now (total - 1)).1 then 1
           else 0) := by
  intro init
  induction init with
  | nil =>
      intro last i hi
      have ht : total = i + 1 := by simp at hi; omega
      subst ht
      have hp := processAccount_delay_count now d a (i + 1) i last
      simp only [List.nil_append, cycleLoop, List.countP_append, List.countP_nil, hp,
        List.length_nil, Nat.add_sub_cancel]
      split <;> simp [Nat.lt_irrefl]
  | cons t rest ih =>
      intro last i hi
      simp only [List.length_cons] at hi
      have hh := processAccount_delay_count now d a total i t
      have hr := ih last (i + 1) (by omega)
      have hlt : i < total - 1 := by omega
      simp only [List.cons_append, cycleLoop, List.countP_append, List.append_eq, hh, hr]
      have hone : (if (isTokenExpiredOrInvalid t (d t) now i).1 then 1
          else if i < total - 1 then (1 : Nat) else 0) = 1 := by
        simp [hlt]
      rw [hone]
      simp only [List.length_cons]
      omega

/-- C7, amended: over a nonempty credential sequence `init ++ [last]`,
one cycle suspends `init.length` (that is, N - 1) times for the non-last
credentials, plus one further suspension after the last credential
exactly when the gate rejects it (the skip branch delays even in last
position); when the last credential is attempted remotely there is no
suspension after it. -/
theorem runCheckInCycle_delay_count (now : Int) (d : String → DecodeOutcome)
    (a : String → ApiResponse) (s : SchedState) (init : List String) (last : String)
    (h : s.loadedTokens = init ++ [last]) :
    (runCheckInCycle now d a s).events.countP isDelay =
      init.length +
        (if (isTokenExpiredOrInvalid last (d last) now (s.loadedTokens.length - 1)).1
          then 1 else 0) := by
  cases s with
  | mk armed nrt st toks =>
      have h' : toks = init ++ [last] := h
      subst h'
      have hloop := cycleLoop_delay_count now d a (init ++ [last]).length init last 0
        (by simp)
      obtain ⟨-, -, hs3⟩ := scheduleNextRun_trace now
        (SchedState.mk armed nrt "RUNNING" (init ++ [last]))
      simp only [runCheckInCycle, updateBotStatus, cycleCompletion]
      split
      · rename_i h0
        simp at h0
      · simp only [List.countP_append, List.countP_cons, List.countP_nil,
          isDelay_log, isDelay_statusUpdate, hloop, hs3, List.cons_append,
          List.nil_append, List.singleton_append]
        simp

/-- C7, counterexample: a cycle over a single credential that the gate
rejects suspends once — not N - 1 = 0 times as the claim states — because
the skip branch delays even after the final credential. -/
theorem delay_after_last_skipped_counterexample :
    (runCheckInCycle 0 decodeEnvNull apiNoCode
        (SchedState.mk false none "IDLE" ["tok1"])).events.countP isDelay = 1 ∧
    (SchedState.mk false none "IDLE" ["tok1"]).loadedTokens.length - 1 = 0 := by
  constructor
  · rfl
  · rfl

/-- Witness for the delay-count theorem: a two-credential cycle in which
both credentials are rejected by the gate suspends twice. -/
theorem runCheckInCycle_delay_count_witness :
    (runCheckInCycle 0 decodeEnvNull apiNoCode
        (SchedState.mk false none "IDLE" ["tokA", "tokB"])).events.countP isDelay =
      (["tokA"] : List String).length +
        (if (isTokenExpiredOrInvalid "tokB" (decodeEnvNull "tokB") 0
              ((SchedState.mk false none "IDLE" ["tokA", "tokB"]).loadedTokens.length - 1)).1
          then 1 else 0) :=
  runCheckInCycle_delay_count 0 decodeEnvNull apiNoCode
    (SchedState.mk false none "IDLE" ["tokA", "tokB"]) ["tokA"] "tokB" rfl
